import Mathlib

/-!
Shallow embedding of the notebook
`sagemaker-python-sdk/tensorflow_keras_cifar10/tensorflow_keras_CIFAR10.ipynb`.

The notebook is a linear sequence of code cells that: set up a SageMaker
session, download CIFAR-10, upload it to S3, construct and fit a TensorFlow
estimator with the script `cifar10_cnn.py` as entry point, deploy an
endpoint, make one prediction on random data, and delete the endpoint.
The cells also display the definitions of `keras_model_fn` and the input
functions from `cifar10_cnn.py`.

We embed (a) the Keras layer stack and its shape propagation, (b) the
hyperparameter dictionary and how `keras_model_fn` consumes it, and
(c) the notebook itself as a list of cells of statements, with a run
semantics over an oracle that decides which external calls fail.
-/

/-- Modelled from the spec: `HEIGHT` is defined in `cifar10_cnn.py`, which is
not under `src/`; the spec fixes CIFAR-10 images at 32x32x3. -/
def HEIGHT : Nat := 32

/-- Modelled from the spec: `WIDTH` is defined in `cifar10_cnn.py`, which is
not under `src/`; the spec fixes CIFAR-10 images at 32x32x3. -/
def WIDTH : Nat := 32

/-- Modelled from the spec: `DEPTH` is defined in `cifar10_cnn.py`, which is
not under `src/`; the spec fixes CIFAR-10 images at 32x32x3. -/
def DEPTH : Nat := 3

/-- Modelled from the spec: `NUM_CLASSES` is defined in `cifar10_cnn.py`,
which is not under `src/`; the spec fixes CIFAR-10 at 10 classes. -/
def NUM_CLASSES : Nat := 10

/-- Modelled from the spec: Keras derives the implicit input layer's name by
appending `_input` to the name of the first layer; the framework is external
to this repository. The notebook's comments state this rule at the
`serving_input_fn` cell and at the prediction cell. -/
def kerasInputLayerName (firstLayer : String) : String := firstLayer ++ "_input"

/-- Modelled from the spec: `INPUT_TENSOR_NAME` is defined in
`cifar10_cnn.py`, which is not under `src/`; the notebook's comment states
that this inputs key matches the Keras input-layer name, which for the first
layer named `inputs` is `inputs_input`. -/
def INPUT_TENSOR_NAME : String := kerasInputLayerName "inputs"

/-- A Python value, sufficient for the dictionaries the notebook builds:
numeric and string scalars, booleans, lists and string-keyed dictionaries. -/
inductive PyValue where
  | num (q : ℚ)
  | strV (s : String)
  | boolV (b : Bool)
  | listV (xs : List PyValue)
  | dictV (kvs : List (String × PyValue))

/-- A value is a scalar when it is a number, a string or a boolean, i.e. not
a list and not a dictionary. -/
def PyValue.isScalar : PyValue → Bool
  | .num _ => true
  | .strV _ => true
  | .boolV _ => true
  | .listV _ => false
  | .dictV _ => false

/-- A value is a numeric scalar when it is a number. -/
def PyValue.isNum : PyValue → Bool
  | .num _ => true
  | _ => false

/-- A dictionary is flat when every value bound by it is a scalar. -/
def isFlatDict : PyValue → Bool
  | .dictV kvs => kvs.all (fun kv => kv.2.isScalar)
  | _ => false

/-- Padding mode of a Keras `Conv2D` layer; the source uses the string
`same` for two of the convolutions and the default `valid` for the rest. -/
inductive Padding where
  | same
  | valid
deriving DecidableEq, Repr

/-- One Keras layer as added by `keras_model_fn` in the notebook. `conv2D`
records the filter count, kernel size, padding, the optional layer name
and the optional `input_shape` keyword. -/
inductive Layer where
  | conv2D (filters : Nat) (kernel : Nat × Nat) (padding : Padding)
      (lname : Option String) (inputShape : Option (Nat × Nat × Nat))
  | activation (fn : String)
  | maxPooling2D (pool : Nat × Nat)
  | dropout (rate : ℚ)
  | flatten
  | dense (units : Nat)
deriving DecidableEq, Repr

/-- The layer stack of `keras_model_fn`, transcribed in source order from the
notebook cell that defines it. -/
def modelLayers : List Layer :=
  [ .conv2D 32 (3, 3) .same (some "inputs") (some (HEIGHT, WIDTH, DEPTH)),
    .activation "relu",
    .conv2D 32 (3, 3) .valid none none,
    .activation "relu",
    .maxPooling2D (2, 2),
    .dropout (1/4),
    .conv2D 64 (3, 3) .same none none,
    .activation "relu",
    .conv2D 64 (3, 3) .valid none none,
    .activation "relu",
    .maxPooling2D (2, 2),
    .dropout (1/4),
    .flatten,
    .dense 512,
    .activation "relu",
    .dropout (1/2),
    .dense NUM_CLASSES,
    .activation "softmax" ]

/-- Output shape of one layer on a given input shape, following the Keras
rules the source relies on: `same` convolution keeps height and width and
sets the channel count to the filter count; `valid` convolution shrinks each
spatial side by kernel size minus one; max pooling divides the spatial sides
by the pool size; flatten multiplies all dimensions; dense replaces the
feature dimension; activation and dropout keep the shape. -/
def layerOutShape : Layer → List Nat → Option (List Nat)
  | .conv2D f (kh, kw) pad _ _, [h, w, _] =>
      match pad with
      | .same => some [h, w, f]
      | .valid =>
          if kh ≤ h ∧ kw ≤ w then some [h - (kh - 1), w - (kw - 1), f] else none
  | .conv2D _ _ _ _ _, _ => none
  | .activation _, s => some s
  | .maxPooling2D (ph, pw), [h, w, c] => some [h / ph, w / pw, c]
  | .maxPooling2D _, _ => none
  | .dropout _, s => some s
  | .flatten, s => some [s.foldl (fun a b => a * b) 1]
  | .dense u, [_] => some [u]
  | .dense _, _ => none

/-- Shape after running a whole layer stack on an input shape. -/
def runShape (layers : List Layer) (s : List Nat) : Option (List Nat) :=
  layers.foldl (fun acc l => acc.bind (layerOutShape l)) (some s)

/-- The `input_shape` keyword of the first layer of the model, when given. -/
def modelInputShape : Option (Nat × Nat × Nat) :=
  match modelLayers with
  | .conv2D _ _ _ _ is :: _ => is
  | _ => none

/-- The `name` keyword of the first layer of the model, when given. -/
def firstLayerName : Option String :=
  match modelLayers with
  | .conv2D _ _ _ n _ :: _ => n
  | _ => none

/-- The optimizer built by `keras_model_fn`: an RMSProp optimizer taking the
two values looked up in the hyperparameter dictionary. -/
structure RMSPropOptimizer where
  learning_rate : PyValue
  decay : PyValue

/-- The compiled Keras Sequential model returned by `keras_model_fn`: the
layer stack plus the compile arguments (loss, optimizer, metrics). -/
structure CompiledModel where
  layers : List Layer
  loss : String
  optimizer : RMSPropOptimizer
  metrics : List String

/-- Python dictionary subscription `d[k]`: the bound value, or a `KeyError`
when the key is absent. -/
def pyGetItem (d : List (String × PyValue)) (k : String) : Except String PyValue :=
  match d.lookup k with
  | some v => .ok v
  | none => .error ("KeyError: " ++ k)

/-- The `keras_model_fn` of the notebook: builds the Sequential layer stack,
builds an RMSProp optimizer from `hyperparameters['learning_rate']` and
`hyperparameters['decay']`, and compiles with categorical-crossentropy loss
and the accuracy metric. A missing key surfaces as a `KeyError`, the
`learning_rate` lookup being evaluated first. -/
def keras_model_fn (hyperparameters : List (String × PyValue)) :
    Except String CompiledModel :=
  match hyperparameters.lookup "learning_rate" with
  | none => .error "KeyError: learning_rate"
  | some lr =>
    match hyperparameters.lookup "decay" with
    | none => .error "KeyError: decay"
    | some dc =>
      .ok { layers := modelLayers
            loss := "categorical_crossentropy"
            optimizer := { learning_rate := lr, decay := dc }
            metrics := ["accuracy"] }

/-- The hyperparameter dictionary the notebook passes to the estimator,
transcribed from the `TensorFlow(...)` construction: learning rate `1e-4`
and decay `1e-6`. -/
def hpList : List (String × PyValue) :=
  [("learning_rate", .num (1/10000)), ("decay", .num (1/1000000))]

/-- Keyword arguments of the `TensorFlow(...)` estimator construction,
transcribed from the notebook (the `role` argument, an opaque credential
handle, is not carried). -/
structure EstimatorArgs where
  entry_point : String
  framework_version : String
  hyperparameters : PyValue
  training_steps : Nat
  evaluation_steps : Nat
  train_instance_count : Nat
  train_instance_type : String

/-- The estimator arguments of the notebook's training-job cell. -/
def estimatorArgs : EstimatorArgs :=
  { entry_point := "cifar10_cnn.py"
    framework_version := "1.11.0"
    hyperparameters := .dictV hpList
    training_steps := 1000
    evaluation_steps := 100
    train_instance_count := 1
    train_instance_type := "ml.c4.xlarge" }

/-- A training configuration requests distributed training when it asks for
more than one training instance. -/
def isDistributedTraining (a : EstimatorArgs) : Prop :=
  1 < a.train_instance_count

/-- The serving input receiver built by `serving_input_fn`: tensors are
described by their placeholder shapes, `none` standing for the unconstrained
batch dimension `None`. -/
structure ServingInputReceiver where
  features : List (String × List (Option Nat))
  receiverTensors : List (String × List (Option Nat))

/-- The `serving_input_fn` of the notebook: a placeholder of shape
`[None, HEIGHT, WIDTH, DEPTH]` exposed under the key `INPUT_TENSOR_NAME`,
both as features and as receiver tensors. -/
def serving_input_fn (params : List (String × PyValue)) : ServingInputReceiver :=
  let tensor : List (Option Nat) := [none, some HEIGHT, some WIDTH, some DEPTH]
  let inputs := [(INPUT_TENSOR_NAME, tensor)]
  { features := inputs, receiverTensors := inputs }

/-- A concrete data shape matches a placeholder shape when they have the same
rank and every constrained dimension agrees; `none` matches any size. -/
def matchesPlaceholder : List (Option Nat) → List Nat → Bool
  | [], [] => true
  | none :: ps, _ :: ds => matchesPlaceholder ps ds
  | some p :: ps, d :: ds => p == d && matchesPlaceholder ps ds
  | _, _ => false

/-- Shape of the endpoint's response to a batched input: the batch dimension
followed by the model's output shape for one sample. -/
def responseShape (dataShape : List Nat) : Option (List Nat) :=
  match dataShape with
  | b :: rest => (runShape modelLayers rest).map (fun o => b :: o)
  | [] => none

/-- Shape of the fake prediction data, from `np.random.randn(1, 32, 32, 3)`. -/
def fakeDataShape : List Nat := [1, 32, 32, 3]

/-- The steps of the notebook's linear flow, at the granularity of its
section headings. -/
inductive Step where
  | createSession
  | downloadDataset
  | uploadDataset
  | submitTraining
  | deployEndpoint
  | predictOnce
  | teardownEndpoint
deriving DecidableEq, Repr

/-- The claimed linear order of the notebook's steps. -/
def canonicalOrder : List Step :=
  [ .createSession, .downloadDataset, .uploadDataset, .submitTraining,
    .deployEndpoint, .predictOnce, .teardownEndpoint ]

/-- One call the notebook's top-level code makes, with the arguments the
claims are about. `predictCall` carries the inputs key and the shape of
the `data` array bound two lines above it; `deleteEndpointCall` targets
`predictor.endpoint`, resolved by the run semantics. -/
inductive Call where
  | sessionInit
  | getExecRole
  | cifar10Download
  | uploadData (path : String)
  | estimatorInit (args : EstimatorArgs)
  | fitCall
  | deployCall (initialInstanceCount : Nat) (instanceType : String)
  | npRandn (shape : List Nat)
  | predictCall (inputKey : String) (dataShape : List Nat)
  | deleteEndpointCall

/-- The library or module a call resolves to. `utils` is a file of this
repository sitting next to the notebook, so `cifar10Download` is
repository-local; everything else the notebook calls lives in an external
library. -/
inductive Callee where
  | sagemakerSDK
  | tensorflowFramework
  | numpyLib
  | repoLocal
deriving DecidableEq, Repr

/-- Module resolution for each call of the notebook. -/
def calleeOf : Call → Callee
  | .sessionInit => .sagemakerSDK
  | .getExecRole => .sagemakerSDK
  | .cifar10Download => .repoLocal
  | .uploadData _ => .sagemakerSDK
  | .estimatorInit _ => .sagemakerSDK
  | .fitCall => .sagemakerSDK
  | .deployCall _ _ => .sagemakerSDK
  | .npRandn _ => .numpyLib
  | .predictCall _ _ => .sagemakerSDK
  | .deleteEndpointCall => .sagemakerSDK

/-- A call is external when its callee is not a file of this repository. -/
def Call.isExternal (c : Call) : Bool :=
  match calleeOf c with
  | .repoLocal => false
  | _ => true

/-- Membership in the set of interfaces enumerated by the spec: managed ML
platform SDK calls (session creation and credentials, data upload, estimator
construction and fit, endpoint deploy, predict, delete) and deep-learning
framework model/estimator API calls. The numpy random-data call and the
repository-local dataset download are in neither family. -/
def inEnumeratedInterfaces : Call → Bool
  | .sessionInit => true
  | .getExecRole => true
  | .uploadData _ => true
  | .estimatorInit _ => true
  | .fitCall => true
  | .deployCall _ _ => true
  | .predictCall _ _ => true
  | .deleteEndpointCall => true
  | .npRandn _ => false
  | .cifar10Download => false

/-- Recognizer for the numpy fake-data call. -/
def isRandnCall : Call → Bool
  | .npRandn _ => true
  | _ => false

/-- Recognizer for prediction calls. -/
def Call.isPredict : Call → Bool
  | .predictCall _ _ => true
  | _ => false

/-- One top-level statement of a notebook cell: an expression-statement
call, an assignment whose right-hand side is a call, a function definition
(which executes nothing when defined), a shell display escape, a module
import, or a call wrapped in an exception handler that swallows the error.
The last form does not occur in the notebook; it exists so that its absence
is a statement about the source. -/
inductive Stmt where
  | callStmt (c : Call)
  | assignStmt (lhs : String) (c : Call)
  | defStmt (fname : String)
  | shellStmt (cmd : String)
  | moduleImport (m : String)
  | tryCall (c : Call)

/-- Whether a statement guards its call with an exception handler. -/
def Stmt.isTry : Stmt → Bool
  | .tryCall _ => true
  | _ => false

/-- The call a statement issues, if any. -/
def stmtCall : Stmt → Option Call
  | .callStmt c => some c
  | .assignStmt _ c => some c
  | .tryCall c => some c
  | _ => none

/-- One code cell of the notebook, titled by the section heading of the
markdown that precedes it. -/
structure CodeCell where
  title : String
  stmts : List Stmt

/-- The notebook's code cells, transcribed in order. -/
def notebookCells : List CodeCell :=
  [ { title := "Set up the environment"
      stmts := [ .moduleImport "os", .moduleImport "sagemaker",
                 .assignStmt "sagemaker_session" .sessionInit,
                 .assignStmt "role" .getExecRole ] },
    { title := "Download the CIFAR-10 dataset"
      stmts := [ .moduleImport "utils", .callStmt .cifar10Download ] },
    { title := "Upload the dataset to an S3 bucket"
      stmts := [ .assignStmt "inputs" (.uploadData "/tmp/cifar10_data") ] },
    { title := "Complete source code"
      stmts := [ .shellStmt "cat cifar10_cnn.py" ] },
    { title := "The model function"
      stmts := [ .defStmt "keras_model_fn" ] },
    { title := "Input functions"
      stmts := [ .defStmt "serving_input_fn", .defStmt "train_input_fn",
                 .defStmt "eval_input_fn" ] },
    { title := "Create a training job using the SageMaker TensorFlow Estimator"
      stmts := [ .moduleImport "sagemaker.tensorflow",
                 .assignStmt "estimator" (.estimatorInit estimatorArgs),
                 .callStmt .fitCall ] },
    { title := "Deploy the trained model"
      stmts := [ .assignStmt "predictor" (.deployCall 1 "ml.m4.xlarge") ] },
    { title := "Make some predictions"
      stmts := [ .moduleImport "numpy",
                 .assignStmt "data" (.npRandn fakeDataShape),
                 .callStmt (.predictCall "inputs_input" fakeDataShape) ] },
    { title := "Cleaning up"
      stmts := [ .callStmt .sessionInit, .callStmt .deleteEndpointCall ] } ]

/-- All top-level statements of the notebook, in execution order. -/
def notebookStmts : List Stmt :=
  (notebookCells.map CodeCell.stmts).foldr (fun a b => a ++ b) []

/-- All calls the notebook's top-level code makes, in execution order. -/
def notebookCalls : List Call :=
  notebookStmts.filterMap stmtCall

/-- The step a cell performs, read off the notebook's own section
headings; the source-display and function-definition cells perform none. -/
def stepOfCell (c : CodeCell) : Option Step :=
  if c.title = "Set up the environment" then some .createSession
  else if c.title = "Download the CIFAR-10 dataset" then some .downloadDataset
  else if c.title = "Upload the dataset to an S3 bucket" then some .uploadDataset
  else if c.title = "Create a training job using the SageMaker TensorFlow Estimator" then
    some .submitTraining
  else if c.title = "Deploy the trained model" then some .deployEndpoint
  else if c.title = "Make some predictions" then some .predictOnce
  else if c.title = "Cleaning up" then some .teardownEndpoint
  else none

/-- Run a list of statements against an oracle that decides which external
calls raise (and with what payload). A raising call aborts the run with its
error; a `tryCall` would swallow the error and continue. -/
def runStmts (oracle : Call → Option String) : List Stmt → Except String Unit
  | [] => .ok ()
  | .callStmt c :: rest =>
      match oracle c with
      | some e => .error e
      | none => runStmts oracle rest
  | .assignStmt _ c :: rest =>
      match oracle c with
      | some e => .error e
      | none => runStmts oracle rest
  | .tryCall _ :: rest => runStmts oracle rest
  | .defStmt _ :: rest => runStmts oracle rest
  | .shellStmt _ :: rest => runStmts oracle rest
  | .moduleImport _ :: rest => runStmts oracle rest

/-- The first error an oracle assigns along a list of calls, if any. -/
def firstFailure (oracle : Call → Option String) : List Call → Option String
  | [] => none
  | c :: rest =>
      match oracle c with
      | some e => some e
      | none => firstFailure oracle rest

/-- The outcome dictated by pure propagation of the first failing call. -/
def outcomeOf (oracle : Call → Option String) (cs : List Call) :
    Except String Unit :=
  match firstFailure oracle cs with
  | some e => .error e
  | none => .ok ()

/-- The steps the notebook issues under an oracle: a cell's step is issued
when the cell begins, and later cells begin only after it finished without
an error. -/
def issuedSteps (oracle : Call → Option String) : List CodeCell → List Step
  | [] => []
  | c :: rest =>
      match runStmts oracle c.stmts with
      | .ok _ => (stepOfCell c).toList ++ issuedSteps oracle rest
      | .error _ => (stepOfCell c).toList

/-- Names the external services pick during a run: the S3 object key of the
uploaded dataset, the key of the training job's model artifacts, and the
name of the endpoint `deploy` creates (which `predictor.endpoint` holds). -/
structure Env where
  datasetKey : String
  artifactKey : String
  endpointName : String

/-- The externally visible resources the notebook touches: whether the
session's S3 bucket exists, the uploaded dataset objects, the training
artifacts, and the live endpoints. -/
structure NbState where
  bucketExists : Bool
  datasets : List String
  modelArtifacts : List String
  endpoints : List String

/-- A run state: the resource state plus the binding of
`predictor.endpoint` once `deploy` has returned. -/
structure RunSt where
  world : NbState
  predictorEndpoint : Option String

/-- Effect of one call on the resources: upload creates the bucket if needed
and adds the dataset object, fit adds the model artifacts, deploy creates
the endpoint and binds `predictor`, and `delete_endpoint(predictor.endpoint)`
removes exactly that endpoint. Every other call leaves the resources
unchanged. -/
def applyCall (env : Env) (st : RunSt) : Call → RunSt
  | .uploadData _ =>
      { st with world := { st.world with
                           bucketExists := true
                           datasets := st.world.datasets ++ [env.datasetKey] } }
  | .fitCall =>
      { st with world := { st.world with
                           modelArtifacts := st.world.modelArtifacts ++ [env.artifactKey] } }
  | .deployCall _ _ =>
      { world := { st.world with endpoints := st.world.endpoints ++ [env.endpointName] }
        predictorEndpoint := some env.endpointName }
  | .deleteEndpointCall =>
      match st.predictorEndpoint with
      | some e => { st with world := { st.world with
                                       endpoints := st.world.endpoints.erase e } }
      | none => st
  | _ => st

/-- Resource state after a list of calls. -/
def execCalls (env : Env) (st : RunSt) (cs : List Call) : RunSt :=
  cs.foldl (applyCall env) st

/-- The calls of the notebook's cleanup cell:
`sagemaker.Session().delete_endpoint(predictor.endpoint)`. -/
def teardownCalls : List Call := [.sessionInit, .deleteEndpointCall]

/-- The notebook's calls up to (excluding) the cleanup cell. -/
def preTeardownCalls : List Call :=
  [ .sessionInit, .getExecRole, .cifar10Download,
    .uploadData "/tmp/cifar10_data",
    .estimatorInit estimatorArgs, .fitCall,
    .deployCall 1 "ml.m4.xlarge",
    .npRandn fakeDataShape,
    .predictCall "inputs_input" fakeDataShape ]

/-- Under any oracle, the steps a list of cells issues form an initial
segment of the steps of those cells. -/
lemma issuedSteps_take (oracle : Call → Option String) :
    ∀ l : List CodeCell, ∃ k,
      issuedSteps oracle l = (l.filterMap stepOfCell).take k := by
  intro l
  induction l with
  | nil => exact ⟨0, rfl⟩
  | cons c rest ih =>
    obtain ⟨k, hk⟩ := ih
    cases hrun : runStmts oracle c.stmts with
    | ok u =>
      cases hstep : stepOfCell c with
      | none =>
        exact ⟨k, by simp [issuedSteps, hrun, hstep, List.filterMap_cons, hk]⟩
      | some s =>
        exact ⟨k + 1, by
          simp [issuedSteps, hrun, hstep, List.filterMap_cons, hk,
                List.take_succ_cons]⟩
    | error e =>
      cases hstep : stepOfCell c with
      | none =>
        exact ⟨0, by simp [issuedSteps, hrun, hstep, List.filterMap_cons]⟩
      | some s =>
        exact ⟨1, by
          simp [issuedSteps, hrun, hstep, List.filterMap_cons,
                List.take_succ_cons]⟩

/-- A statement list with no exception handler runs to exactly the outcome
of its first failing call: the error propagates unchanged, and success means
no call failed. -/
lemma runStmts_eq_outcome (oracle : Call → Option String) :
    ∀ l : List Stmt, l.all (fun s => !s.isTry) = true →
      runStmts oracle l = outcomeOf oracle (l.filterMap stmtCall) := by
  intro l
  induction l with
  | nil => intro _; rfl
  | cons s rest ih =>
    intro hall
    rw [List.all_cons, Bool.and_eq_true] at hall
    cases s with
    | callStmt c =>
      cases hc : oracle c <;>
        simp [runStmts, stmtCall, outcomeOf, firstFailure, hc,
              List.filterMap_cons, ih hall.2]
    | assignStmt v c =>
      cases hc : oracle c <;>
        simp [runStmts, stmtCall, outcomeOf, firstFailure, hc,
              List.filterMap_cons, ih hall.2]
    | tryCall c => simp [Stmt.isTry] at hall
    | defStmt f =>
      simp [runStmts, stmtCall, List.filterMap_cons, ih hall.2]
    | shellStmt m =>
      simp [runStmts, stmtCall, List.filterMap_cons, ih hall.2]
    | moduleImport m =>
      simp [runStmts, stmtCall, List.filterMap_cons, ih hall.2]

/-- C1: the notebook performs its steps in exactly the claimed linear order —
create the session/credentials, download the dataset, upload it, submit a
training job referencing the model-definition script `cifar10_cnn.py` and
await it, deploy an endpoint, issue one prediction, tear the endpoint down —
and under any oracle the issued steps are an initial segment of that order,
so no step is issued before all earlier steps. -/
theorem notebook_steps_linear_order :
    notebookCells.filterMap stepOfCell = canonicalOrder
    ∧ estimatorArgs.entry_point = "cifar10_cnn.py"
    ∧ ∀ oracle : Call → Option String, ∃ k,
        issuedSteps oracle notebookCells = canonicalOrder.take k := by
  have horder : notebookCells.filterMap stepOfCell = canonicalOrder := by decide
  refine ⟨horder, rfl, fun oracle => ?_⟩
  obtain ⟨k, hk⟩ := issuedSteps_take oracle notebookCells
  exact ⟨k, by rw [hk, horder]⟩

/-- C2: the notebook issues exactly one prediction call, its input is a
single sample of shape (1, 32, 32, 3), that shape matches the serving input
placeholder shape `[None, HEIGHT, WIDTH, DEPTH]` exposed by
`serving_input_fn`, and the response has the expected shape
(1, NUM_CLASSES). -/
theorem notebook_single_prediction :
    notebookCalls.filter Call.isPredict
      = [Call.predictCall "inputs_input" fakeDataShape]
    ∧ fakeDataShape = [1, 32, 32, 3]
    ∧ (serving_input_fn []).features
        = [(INPUT_TENSOR_NAME, [none, some HEIGHT, some WIDTH, some DEPTH])]
    ∧ matchesPlaceholder [none, some HEIGHT, some WIDTH, some DEPTH]
        fakeDataShape = true
    ∧ responseShape fakeDataShape = some [1, NUM_CLASSES] := by
  refine ⟨rfl, rfl, rfl, by decide, by decide⟩

/-- C3: the model of `keras_model_fn` is dimensioned for CIFAR-10: its first
layer takes input shape `(HEIGHT, WIDTH, DEPTH) = (32, 32, 3)`, its last two
layers are a Dense over `NUM_CLASSES = 10` classes followed by a softmax,
the layer stack maps the input shape to an output over the 10 classes, and
the fake prediction data is one sample of that input shape. -/
theorem model_matches_cifar10 :
    modelInputShape = some (HEIGHT, WIDTH, DEPTH)
    ∧ (HEIGHT, WIDTH, DEPTH) = (32, 32, 3)
    ∧ modelLayers.drop 16 = [.dense NUM_CLASSES, .activation "softmax"]
    ∧ NUM_CLASSES = 10
    ∧ runShape modelLayers [HEIGHT, WIDTH, DEPTH] = some [NUM_CLASSES]
    ∧ fakeDataShape = 1 :: [HEIGHT, WIDTH, DEPTH] := by
  refine ⟨rfl, rfl, by decide, rfl, by decide, rfl⟩

/-- C4: the hyperparameters the notebook passes to the training job form a
flat dictionary of two string keys bound to numeric scalars (learning rate
1e-4 and decay 1e-6, with no nested structure) — this holds of every
estimator construction the notebook makes — and `keras_model_fn` consumes
the dictionary only through the two lookups by name: its result factors
through them. -/
theorem hyperparameters_flat_scalar_mapping :
    estimatorArgs.hyperparameters = .dictV hpList
    ∧ isFlatDict (.dictV hpList) = true
    ∧ hpList.map Prod.fst = ["learning_rate", "decay"]
    ∧ hpList.all (fun kv => kv.2.isNum) = true
    ∧ hpList.lookup "learning_rate" = some (.num (1/10000))
    ∧ hpList.lookup "decay" = some (.num (1/1000000))
    ∧ notebookCalls.all
        (fun c => match c with
          | .estimatorInit a => isFlatDict a.hyperparameters
          | _ => true) = true
    ∧ ∃ g : Option PyValue → Option PyValue → Except String CompiledModel,
        ∀ h : List (String × PyValue),
          keras_model_fn h = g (h.lookup "learning_rate") (h.lookup "decay") := by
  refine ⟨rfl, rfl, rfl, rfl, rfl, rfl, rfl,
    ⟨fun olr odc =>
      match olr with
      | none => .error "KeyError: learning_rate"
      | some lr =>
        match odc with
        | none => .error "KeyError: decay"
        | some dc =>
          .ok { layers := modelLayers
                loss := "categorical_crossentropy"
                optimizer := { learning_rate := lr, decay := dc }
                metrics := ["accuracy"] },
      fun h => rfl⟩⟩

/-- C5: the notebook's top-level code contains no exception handler, and
under any assignment of failures to external calls its run is exactly the
propagation of the first failing call's error, unchanged. -/
theorem notebook_no_error_recovery :
    notebookStmts.all (fun s => !s.isTry) = true
    ∧ ∀ oracle : Call → Option String,
        runStmts oracle notebookStmts = outcomeOf oracle notebookCalls :=
  ⟨rfl, fun oracle => runStmts_eq_outcome oracle notebookStmts rfl⟩

/-- C6 counterexample: the notebook makes an external call outside the
enumerated interfaces — `np.random.randn(1, 32, 32, 3)` is a call into
numpy, which is neither a managed-ML-platform SDK call nor a deep-learning
framework model/estimator call, and it is the only such call. -/
theorem external_call_outside_enumerated_set :
    notebookCalls.filter
        (fun c => c.isExternal && !inEnumeratedInterfaces c)
      = [Call.npRandn fakeDataShape]
    ∧ Call.isExternal (Call.npRandn fakeDataShape) = true
    ∧ inEnumeratedInterfaces (Call.npRandn fakeDataShape) = false :=
  ⟨rfl, rfl, rfl⟩

/-- C6 amended: every external call of the notebook is one of the enumerated
interfaces, except for the single numpy random-data call that builds the
fake prediction input. -/
theorem external_calls_enumerated_except_randn :
    notebookCalls.all
        (fun c => !c.isExternal || inEnumeratedInterfaces c || isRandnCall c)
      = true
    ∧ notebookCalls.countP isRandnCall = 1 :=
  ⟨rfl, rfl⟩

/-- C7: the cleanup cell deletes exactly the endpoint the deploy step
created — the deleted target `predictor.endpoint` is the endpoint name bound
by `deploy`, which is live before teardown — and leaves the bucket, the
uploaded dataset and the training artifacts unchanged. -/
theorem teardown_deletes_only_deployed_endpoint (env : Env) (s : NbState) :
    notebookCalls = preTeardownCalls ++ teardownCalls
    ∧ (execCalls env ⟨s, none⟩ preTeardownCalls).predictorEndpoint
        = some env.endpointName
    ∧ env.endpointName ∈ (execCalls env ⟨s, none⟩ preTeardownCalls).world.endpoints
    ∧ (execCalls env ⟨s, none⟩ notebookCalls).world.endpoints
        = ((execCalls env ⟨s, none⟩ preTeardownCalls).world.endpoints).erase
            env.endpointName
    ∧ (execCalls env ⟨s, none⟩ notebookCalls).world.datasets
        = (execCalls env ⟨s, none⟩ preTeardownCalls).world.datasets
    ∧ (execCalls env ⟨s, none⟩ notebookCalls).world.modelArtifacts
        = (execCalls env ⟨s, none⟩ preTeardownCalls).world.modelArtifacts
    ∧ (execCalls env ⟨s, none⟩ notebookCalls).world.bucketExists
        = (execCalls env ⟨s, none⟩ preTeardownCalls).world.bucketExists := by
  refine ⟨rfl, rfl, ?_, rfl, rfl, rfl, rfl⟩
  have hend : (execCalls env ⟨s, none⟩ preTeardownCalls).world.endpoints
      = s.endpoints ++ [env.endpointName] := rfl
  rw [hend]
  exact List.mem_append_right _ (by simp)

/-- C8: the prediction request's inputs key `inputs_input` is the name Keras
derives for the input layer from the first layer's name `inputs` by
appending `_input`, and it is the key `INPUT_TENSOR_NAME` under which
`serving_input_fn` exposes its placeholder; every prediction call of the
notebook uses that key. -/
theorem predict_key_matches_input_layer :
    firstLayerName = some "inputs"
    ∧ kerasInputLayerName "inputs" = "inputs_input"
    ∧ INPUT_TENSOR_NAME = kerasInputLayerName "inputs"
    ∧ (serving_input_fn []).features.map Prod.fst = [INPUT_TENSOR_NAME]
    ∧ notebookCalls.all
        (fun c => match c with
          | .predictCall k _ => k == INPUT_TENSOR_NAME
          | _ => true) = true := by
  refine ⟨rfl, rfl, rfl, rfl, by decide⟩

/-- C9: whenever the hyperparameter dictionary binds both `learning_rate`
and `decay`, `keras_model_fn` returns the compiled Sequential model — the
layer stack compiled with categorical-crossentropy loss, an RMSProp
optimizer built from exactly those two values, and the accuracy metric —
and when either key is absent it raises a `KeyError` instead of returning a
model. -/
theorem keras_model_fn_behavior (h : List (String × PyValue)) :
    (∀ lr dc, h.lookup "learning_rate" = some lr →
        h.lookup "decay" = some dc →
        keras_model_fn h
          = .ok { layers := modelLayers
                  loss := "categorical_crossentropy"
                  optimizer := { learning_rate := lr, decay := dc }
                  metrics := ["accuracy"] })
    ∧ (h.lookup "learning_rate" = none →
        keras_model_fn h = .error "KeyError: learning_rate")
    ∧ (∀ lr, h.lookup "learning_rate" = some lr →
        h.lookup "decay" = none →
        keras_model_fn h = .error "KeyError: decay") := by
  refine ⟨fun lr dc hlr hdc => ?_, fun hlr => ?_, fun lr hlr hdc => ?_⟩
  · simp [keras_model_fn, hlr, hdc]
  · simp [keras_model_fn, hlr]
  · simp [keras_model_fn, hlr, hdc]

/-- Witness for C9: on the notebook's own dictionary `keras_model_fn`
returns the compiled model with learning rate 1e-4 and decay 1e-6; on the
empty dictionary it raises `KeyError: learning_rate`; with only a learning
rate it raises `KeyError: decay`. -/
theorem keras_model_fn_behavior_witness :
    keras_model_fn hpList
      = .ok { layers := modelLayers
              loss := "categorical_crossentropy"
              optimizer := { learning_rate := .num (1/10000)
                             decay := .num (1/1000000) }
              metrics := ["accuracy"] }
    ∧ keras_model_fn [] = .error "KeyError: learning_rate"
    ∧ keras_model_fn [("learning_rate", .num 1)] = .error "KeyError: decay" :=
  ⟨(keras_model_fn_behavior hpList).1 _ _ rfl rfl,
   (keras_model_fn_behavior []).2.1 rfl,
   (keras_model_fn_behavior [("learning_rate", .num 1)]).2.2 _ rfl rfl⟩

/-- C10: the training job is configured with exactly one training instance,
so it never requests distributed training; this holds of every estimator
construction the notebook makes. -/
theorem training_single_instance :
    estimatorArgs.train_instance_count = 1
    ∧ ¬ isDistributedTraining estimatorArgs
    ∧ notebookCalls.all
        (fun c => match c with
          | .estimatorInit a => a.train_instance_count == 1
          | _ => true) = true := by
  refine ⟨rfl, by unfold isDistributedTraining; decide, by decide⟩
